import Mathlib

/-!
Shallow embedding of `src/samples/export/Python/ComputeSum.py` (a
Structorizer-generated Python sample) and verification of its
specification.

The program has two parts:
* `readNumbers(fileName, numbers, maxNumbers)`: opens a file, reads up to
  `maxNumbers` integers into the caller-supplied Python list `numbers`
  via indexed assignment `numbers[nNumbers] = number`, closes the file in
  a `finally` block, and converts any in-loop error into a bare
  `raise Exception()` after the close.
* a main block (the Reporter): sets `fileNo = 1000`, prompts for a file
  name, and — since `fileNo > 0` always holds — calls
  `readNumbers(file_name, values, 1000)` with `values = []`, prints a
  caught failure, then always prints `sum = <float>` and finally
  computes `sum / nValues` (a ZeroDivisionError when `nValues == 0`;
  the `exit -7` after the failure print is commented out in the source).

The embedding models the file system abstractly: a named resource is
either unopenable (`none`) or a sequence of tokens, each token being an
integer or a malformed token on which `fileReadInt` raises.  Machine
integers are modelled as `Int` (Python integers are unbounded) and the
floating-point accumulator as `Rat`: all values that occur in the
verified scenarios are small integers, on which IEEE double arithmetic
is exact, so `Rat` is a faithful model of the float operations used.
Python list semantics are kept faithfully: `l[i] = v` and `l[i]` raise
`IndexError` when `i ≥ len(l)` (Python lists do not grow on assignment).
-/

namespace ComputeSum

/-- A token of the number file: either a readable integer or a malformed
token on which `fileReadInt` raises an error. -/
inductive Tok where
  | int (v : Int)
  | bad
deriving DecidableEq, Repr

/-- The content of the named file resource: `none` when the resource
cannot be opened, otherwise the sequence of tokens it contains. -/
abbrev File := Option (List Tok)

/-- Errors of the Python runtime that this program can raise.
`exception m` is `Exception(m)` (a bare `Exception()` carries `m = ""`). -/
inductive PyError where
  | exception (msg : String)
  | indexError
  | valueError
  | zeroDivisionError
deriving DecidableEq, Repr

/-- The message `print(failure, sep='')` shows for an error, i.e. Python's
`str` of the exception. -/
def pyStr : PyError → String
  | .exception m => m
  | .indexError => "list assignment index out of range"
  | .valueError => "invalid literal for int()"
  | .zeroDivisionError => "float division by zero"

/-- Result of a Python computation: a returned value or a raised error. -/
inductive RResult where
  | ok (n : Nat)
  | raised (e : PyError)
deriving DecidableEq, Repr

/-- `fileOpen(fileName)`: the open-handle indicator.  It is positive
exactly when the resource can be opened (the concrete positive value is
irrelevant; the program only compares it with `0`). -/
def fileOpen (file : File) : Int :=
  match file with
  | none => 0
  | some _ => 1

/-- Python list assignment `l[i] = v`: returns the updated list, or
`none` (an `IndexError`) when `i` is not an index of `l` — Python lists
do not grow on indexed assignment. -/
def listAssign (l : List Int) (i : Nat) (v : Int) : Option (List Int) :=
  if i < l.length then some (l.set i v) else none

/-- Outcome of the protected read loop of `readNumbers`: its result, the
final buffer, and how many tokens were read from the resource. -/
structure LoopOut where
  res : RResult
  buffer : List Int
  consumed : Nat
deriving DecidableEq, Repr

/-- The read loop of `readNumbers`:
`while not fileEOF(fileNo) and nNumbers < maxNumbers:
   number = fileReadInt(fileNo); numbers[nNumbers] = number;
   nNumbers = nNumbers + 1`.
The first argument is the part of the resource not yet read (end of
resource = empty list). -/
def readLoop : List Tok → List Int → Nat → Nat → LoopOut
  | [], numbers, nNumbers, _ => ⟨.ok nNumbers, numbers, 0⟩
  | t :: ts, numbers, nNumbers, maxNumbers =>
    if nNumbers < maxNumbers then
      match t with
      | .bad => ⟨.raised .valueError, numbers, 1⟩
      | .int v =>
        match listAssign numbers nNumbers v with
        | none => ⟨.raised .indexError, numbers, 1⟩
        | some numbers2 =>
          let out := readLoop ts numbers2 (nNumbers + 1) maxNumbers
          ⟨out.res, out.buffer, out.consumed + 1⟩
    else ⟨.ok nNumbers, numbers, 0⟩

/-- Outcome of a call to `readNumbers`: the returned count or raised
error, the buffer as left by the call (the Python list is mutated in
place, so the caller observes it), the number of tokens read, whether
the open succeeded, and whether `fileClose` ran. -/
structure ReadOutcome where
  result : RResult
  buffer : List Int
  consumed : Nat
  opened : Bool
  closed : Bool
deriving DecidableEq, Repr

/-- `readNumbers(fileName, numbers, maxNumbers)` of ComputeSum.py:
opens the file (raising `Exception("File could not be opened!")` when
the handle indicator is not positive), runs the read loop inside
`try: try: ... finally: fileClose(fileNo) except Exception, error:
raise Exception()`, and returns the count on normal completion.  When
the indicator is positive the resource is openable, so `file.getD []`
is exactly its token list. -/
def readNumbers (file : File) (numbers : List Int) (maxNumbers : Nat) : ReadOutcome :=
  if fileOpen file ≤ 0 then
    ⟨.raised (.exception "File could not be opened!"), numbers, 0, false, false⟩
  else
    let out := readLoop (file.getD []) numbers 0 maxNumbers
    match out.res with
    | .ok n => ⟨.ok n, out.buffer, out.consumed, true, true⟩
    | .raised _ => ⟨.raised (.exception ""), out.buffer, out.consumed, true, true⟩

/-- One line of standard output of the Reporter.  `sumLine s` stands for
the line `sum = <s>`, `avgLine a` for `average = <a>`, and `failLine m`
for the line `print(failure, sep='')` produces for a caught failure. -/
inductive OutLine where
  | failLine (msg : String)
  | sumLine (s : Rat)
  | avgLine (a : Rat)
deriving DecidableEq, Repr

/-- Outcome of one run of the main block: the lines printed to standard
output, the final value of `nValues`, and the uncaught error that
terminated the run, if any. -/
structure RunOutcome where
  output : List OutLine
  nValues : Nat
  crashed : Option PyError
deriving DecidableEq, Repr

/-- The summation loop
`sum = 0.0; for k in range(0, nValues-1+1, 1): sum = sum + values[k]`.
Reading `values[k]` raises `IndexError` (modelled as `none`) when `k` is
out of range. -/
def sumLoop (values : List Int) (nValues : Nat) : Option Rat :=
  (List.range nValues).foldlM (fun s k => (values.get? k).map fun v => s + (v : Rat)) (0 : Rat)

/-- The tail of the main block after the `try`/`except`: the summation
loop, `print("sum = ", sum, sep='')`, and
`print("average = ", sum / nValues, sep='')`.  Dividing by
`nValues = 0` raises `ZeroDivisionError` (Python float division), which
is uncaught and terminates the run after the sum line was printed. -/
def reporterTail (values : List Int) (nValues : Nat) (out1 : List OutLine) : RunOutcome :=
  match sumLoop values nValues with
  | none => ⟨out1, nValues, some .indexError⟩
  | some s =>
    if nValues = 0 then ⟨out1 ++ [.sumLine s], nValues, some .zeroDivisionError⟩
    else ⟨out1 ++ [.sumLine s, .avgLine (s / (nValues : Rat))], nValues, none⟩

/-- The guarded block of the main program: `values = []; nValues = 0;
try: nValues = readNumbers(file_name, values, 1000) except Exception,
failure: print(failure, sep='')` — the `exit -7` after the print is
commented out in the source, so control falls through to the summation
and printing tail in both cases, with `nValues` still `0` after a
failure. -/
def reporterBody (file : File) : RunOutcome :=
  let ro := readNumbers file [] 1000
  match ro.result with
  | .ok n => reporterTail ro.buffer n []
  | .raised e => reporterTail ro.buffer 0 [.failLine (pyStr e)]

/-- The constant assignment `fileNo = 1000` at the top of the main
block; the commented-out input-check loop that would reassign it is
disabled in this build variant. -/
def mainFileNo : Int := 1000

/-- The main block of ComputeSum.py, as a function of the content of the
resource the user names at the prompt. -/
def pyMain (file : File) : RunOutcome :=
  if mainFileNo > 0 then reporterBody file
  else ⟨[], 0, none⟩

/-- The buffer left by running the write sequence
`numbers[n] = t₀; numbers[n+1] = t₁; ...` on a list long enough for
every assignment to be in range. -/
def writeSeq (buf : List Int) (n : Nat) : List Int → List Int
  | [] => buf
  | t :: ts => writeSeq (buf.set n t) (n + 1) ts

/-- Taking one past a just-set index splits the list at that index. -/
theorem take_set_succ : ∀ (l : List Int) (n : Nat) (v : Int), n < l.length →
    (l.set n v).take (n + 1) = l.take n ++ [v] := by
  intro l
  induction l with
  | nil => intro n v h; simp at h
  | cons a as ih =>
    intro n v h
    cases n with
    | zero => rfl
    | succ m =>
      have h' : m < as.length := by simpa using Nat.lt_of_succ_lt_succ (by simpa using h)
      show a :: (as.set m v).take (m + 1) = (a :: as.take m) ++ [v]
      rw [ih m v h']
      rfl

/-- Setting an index strictly below the drop point does not change the drop. -/
theorem drop_set_ge : ∀ (l : List Int) (n k : Nat) (v : Int), n < k →
    (l.set n v).drop k = l.drop k := by
  intro l
  induction l with
  | nil => intro n k v h; rfl
  | cons a as ih =>
    intro n k v h
    cases n with
    | zero =>
      cases k with
      | zero => exact absurd h (by omega)
      | succ j => rfl
    | succ m =>
      cases k with
      | zero => exact absurd h (by omega)
      | succ j =>
        show (as.set m v).drop j = as.drop j
        exact ih m j v (by omega)

/-- Taking exactly the length of the left part of an append returns it. -/
theorem take_len_append : ∀ (l1 l2 : List Int), (l1 ++ l2).take l1.length = l1 := by
  intro l1 l2
  induction l1 with
  | nil => rfl
  | cons a as ih =>
    show a :: (as ++ l2).take as.length = a :: as
    rw [ih]

/-- Writing a sequence into a sufficiently long buffer replaces the slice
starting at the write position and keeps the rest. -/
theorem writeSeq_closed : ∀ (toks : List Int) (buf : List Int) (n : Nat),
    n + toks.length ≤ buf.length →
    writeSeq buf n toks = buf.take n ++ toks ++ buf.drop (n + toks.length) := by
  intro toks
  induction toks with
  | nil => intro buf n h; simp [writeSeq, List.take_append_drop]
  | cons t ts ih =>
    intro buf n h
    simp only [List.length_cons] at h
    have hn : n < buf.length := by omega
    show writeSeq (buf.set n t) (n + 1) ts =
      buf.take n ++ (t :: ts) ++ buf.drop (n + (ts.length + 1))
    rw [ih (buf.set n t) (n + 1) (by rw [List.length_set]; omega)]
    rw [take_set_succ buf n t hn]
    rw [drop_set_ge buf n (n + 1 + ts.length) t (by omega)]
    have e : n + 1 + ts.length = n + (ts.length + 1) := by omega
    rw [e]
    simp [List.append_assoc]

/-- A file of readable integers that all fit is read completely: the loop
returns the full count and writes every value at its position. -/
theorem readLoop_all : ∀ (toks : List Int) (buf : List Int) (n maxN : Nat),
    n + toks.length ≤ maxN → n + toks.length ≤ buf.length →
    readLoop (toks.map Tok.int) buf n maxN =
      ⟨RResult.ok (n + toks.length), writeSeq buf n toks, toks.length⟩ := by
  intro toks
  induction toks with
  | nil => intro buf n maxN h1 h2; simp [readLoop, writeSeq]
  | cons t ts ih =>
    intro buf n maxN h1 h2
    simp only [List.length_cons] at h1 h2
    have hlt : n < maxN := by omega
    have hbuf : n < buf.length := by omega
    have ha : listAssign buf n t = some (buf.set n t) := by simp [listAssign, hbuf]
    simp only [List.map_cons, readLoop, if_pos hlt, ha]
    rw [ih (buf.set n t) (n + 1) maxN (by omega) (by rw [List.length_set]; omega)]
    simp only [List.length_cons, writeSeq, LoopOut.mk.injEq, RResult.ok.injEq, and_true,
      true_and]
    omega

/-- A file of readable integers longer than the remaining capacity fills
the loop up to the maximum: the count reaches `maxN` and exactly
`maxN - n` further tokens are read. -/
theorem readLoop_capacity : ∀ (toks : List Int) (buf : List Int) (n maxN : Nat),
    n ≤ maxN → maxN - n ≤ toks.length → maxN ≤ buf.length →
    readLoop (toks.map Tok.int) buf n maxN =
      ⟨RResult.ok maxN, writeSeq buf n (toks.take (maxN - n)), maxN - n⟩ := by
  intro toks
  induction toks with
  | nil =>
    intro buf n maxN h1 h2 h3
    simp only [List.length_nil, Nat.le_zero] at h2
    have hn : n = maxN := by omega
    subst hn
    simp [readLoop, writeSeq, h2]
  | cons t ts ih =>
    intro buf n maxN h1 h2 h3
    by_cases hlt : n < maxN
    · have hbuf : n < buf.length := by omega
      have ha : listAssign buf n t = some (buf.set n t) := by simp [listAssign, hbuf]
      simp only [List.map_cons, readLoop, if_pos hlt, ha]
      rw [ih (buf.set n t) (n + 1) maxN (by omega)
        (by simp only [List.length_cons] at h2; omega) (by rw [List.length_set]; omega)]
      obtain ⟨k, hk⟩ : ∃ k, maxN - n = k + 1 := ⟨maxN - n - 1, by omega⟩
      have hk2 : maxN - (n + 1) = k := by omega
      rw [hk, hk2]
      simp only [List.take_succ_cons, writeSeq, LoopOut.mk.injEq, and_true, true_and]
    · have hn : n = maxN := by omega
      subst hn
      simp [readLoop, hlt, writeSeq]


/-- The loop count never exceeds the requested maximum, whatever the
tokens are, as long as it starts below the maximum. -/
theorem readLoop_count_le : ∀ (toks : List Tok) (buf : List Int) (n maxN m : Nat),
    n ≤ maxN → (readLoop toks buf n maxN).res = RResult.ok m → m ≤ maxN := by
  intro toks
  induction toks with
  | nil =>
    intro buf n maxN m h1 h2
    simp only [readLoop, RResult.ok.injEq] at h2
    omega
  | cons t ts ih =>
    intro buf n maxN m h1 h2
    by_cases hlt : n < maxN
    · simp only [readLoop, if_pos hlt] at h2
      cases t with
      | bad => simp at h2
      | int v =>
        cases ha : listAssign buf n v with
        | none => simp [ha] at h2
        | some b2 =>
          simp only [ha] at h2
          exact ih b2 (n + 1) maxN m (by omega) h2
    · simp only [readLoop, if_neg hlt, RResult.ok.injEq] at h2
      omega

/-- Unfolding `readNumbers` on an unopenable resource. -/
theorem readNumbers_none (buf : List Int) (maxN : Nat) :
    readNumbers none buf maxN =
      ⟨RResult.raised (PyError.exception "File could not be opened!"), buf, 0, false, false⟩ :=
  rfl

/-- Unfolding `readNumbers` on an openable resource whose loop completes. -/
theorem readNumbers_some_ok (toks : List Tok) (buf : List Int) (maxN n : Nat)
    (h : (readLoop toks buf 0 maxN).res = RResult.ok n) :
    readNumbers (some toks) buf maxN =
      ⟨RResult.ok n, (readLoop toks buf 0 maxN).buffer,
       (readLoop toks buf 0 maxN).consumed, true, true⟩ := by
  simp [readNumbers, fileOpen, h]

/-- Unfolding `readNumbers` on an openable resource whose loop raises:
the original error is replaced by a bare `Exception()`. -/
theorem readNumbers_some_raised (toks : List Tok) (buf : List Int) (maxN : Nat) (e : PyError)
    (h : (readLoop toks buf 0 maxN).res = RResult.raised e) :
    readNumbers (some toks) buf maxN =
      ⟨RResult.raised (PyError.exception ""), (readLoop toks buf 0 maxN).buffer,
       (readLoop toks buf 0 maxN).consumed, true, true⟩ := by
  simp [readNumbers, fileOpen, h]

/-- The sum loop over zero indices yields `0.0` without touching the list. -/
theorem sumLoop_zero (values : List Int) : sumLoop values 0 = some 0 :=
  rfl

/-- The reporter tail with a zero count prints the sum line `0.0` after
whatever came before and then dies on the zero division of the average. -/
theorem reporterTail_zero (values : List Int) (out1 : List OutLine) :
    reporterTail values 0 out1 =
      ⟨out1 ++ [OutLine.sumLine 0], 0, some PyError.zeroDivisionError⟩ :=
  rfl

/-- The `nValues` a run reports is the count the tail was entered with. -/
theorem reporterTail_nValues (values : List Int) (n : Nat) (out1 : List OutLine) :
    (reporterTail values n out1).nValues = n := by
  unfold reporterTail
  cases h : sumLoop values n with
  | none => rfl
  | some s =>
    by_cases h0 : n = 0 <;> simp [h0]

/-- Since `mainFileNo = 1000 > 0`, the main block always runs its guarded
body. -/
theorem pyMain_eq_body (file : File) : pyMain file = reporterBody file :=
  rfl

/-- Unfolding the reporter body when the read call returns a count. -/
theorem reporterBody_ok (file : File) (n : Nat)
    (h : (readNumbers file [] 1000).result = RResult.ok n) :
    reporterBody file = reporterTail (readNumbers file [] 1000).buffer n [] := by
  simp [reporterBody, h]

/-- Unfolding the reporter body when the read call raises: the failure is
printed and control falls through with `nValues` still `0`. -/
theorem reporterBody_raised (file : File) (e : PyError)
    (h : (readNumbers file [] 1000).result = RResult.raised e) :
    reporterBody file =
      reporterTail (readNumbers file [] 1000).buffer 0 [OutLine.failLine (pyStr e)] := by
  simp [reporterBody, h]

/-- Claim C1, as frozen, is false on the code: for the readable one-integer
file `[5]` with `maxNumbers = 1000` and the caller-supplied buffer `[]`
(the very buffer the main program supplies), `readNumbers` does not
return the count `1` — the indexed assignment `numbers[0] = 5` raises an
`IndexError`, which the function converts into a bare raised
`Exception()`. -/
theorem C1_counterexample :
    ¬ (readNumbers (some [Tok.int 5]) [] 1000).result = RResult.ok 1 := by
  decide

/-- Claim C1 (amended): for every readable file containing `N` integers
with `N ≤ maxNumbers`, provided the caller-supplied buffer has length at
least `N`, `readNumbers` returns exactly `N` and the buffer's first `N`
entries afterwards equal the file's integers in read order. -/
theorem C1_reads_all_into_buffer (toks : List Int) (buf : List Int) (maxN : Nat)
    (h1 : toks.length ≤ maxN) (h2 : toks.length ≤ buf.length) :
    (readNumbers (some (toks.map Tok.int)) buf maxN).result = RResult.ok toks.length ∧
    (readNumbers (some (toks.map Tok.int)) buf maxN).buffer.take toks.length = toks := by
  have hall := readLoop_all toks buf 0 maxN (by omega) (by omega)
  have hres : (readLoop (toks.map Tok.int) buf 0 maxN).res = RResult.ok toks.length := by
    rw [hall]
    simp
  rw [readNumbers_some_ok (toks.map Tok.int) buf maxN toks.length hres]
  refine ⟨rfl, ?_⟩
  rw [hall]
  show (writeSeq buf 0 toks).take toks.length = toks
  rw [writeSeq_closed toks buf 0 (by omega)]
  simp only [List.take_zero, List.nil_append, Nat.zero_add]
  exact take_len_append toks _

/-- Witness for the amended claim C1 at the file `[1, 2, 3]`, buffer
`[7, 7, 7, 7]` and capacity `5`. -/
theorem C1_witness :
    (readNumbers (some ([1, 2, 3].map Tok.int)) [7, 7, 7, 7] 5).result = RResult.ok 3 ∧
    (readNumbers (some ([1, 2, 3].map Tok.int)) [7, 7, 7, 7] 5).buffer.take 3 = [1, 2, 3] :=
  C1_reads_all_into_buffer [1, 2, 3] [7, 7, 7, 7] 5 (by decide) (by decide)

/-- Claim C4, as frozen, is false on the code: for the readable file
`[1, 2]` with more than `maxNumbers = 1` integers and the caller-supplied
buffer `[]`, `readNumbers` does not return `maxNumbers` — the first
indexed assignment raises, so the call raises a bare `Exception()`. -/
theorem C4_counterexample :
    ¬ (readNumbers (some [Tok.int 1, Tok.int 2]) [] 1).result = RResult.ok 1 := by
  decide

/-- Claim C4 (amended): provided the caller-supplied buffer has length at
least `maxNumbers`, for every readable file containing more than
`maxNumbers` integers `readNumbers` returns exactly `maxNumbers` and
reads exactly `maxNumbers` tokens from the resource (no further tokens);
and in every case in which `readNumbers` returns a count at all, that
count is at most `maxNumbers`. -/
theorem C4_capacity_bound :
    (∀ (toks : List Int) (buf : List Int) (maxN : Nat),
        maxN < toks.length → maxN ≤ buf.length →
        (readNumbers (some (toks.map Tok.int)) buf maxN).result = RResult.ok maxN ∧
        (readNumbers (some (toks.map Tok.int)) buf maxN).consumed = maxN) ∧
    (∀ (file : File) (buf : List Int) (maxN m : Nat),
        (readNumbers file buf maxN).result = RResult.ok m → m ≤ maxN) := by
  constructor
  · intro toks buf maxN hlen hbuf
    have hcap := readLoop_capacity toks buf 0 maxN (by omega) (by omega) (by omega)
    rw [Nat.sub_zero] at hcap
    have hres : (readLoop (toks.map Tok.int) buf 0 maxN).res = RResult.ok maxN := by
      rw [hcap]
    rw [readNumbers_some_ok (toks.map Tok.int) buf maxN maxN hres]
    exact ⟨rfl, by rw [hcap]⟩
  · intro file buf maxN m h
    cases file with
    | none =>
      rw [readNumbers_none] at h
      exact absurd h (by simp)
    | some toks =>
      cases hres : (readLoop toks buf 0 maxN).res with
      | ok n =>
        rw [readNumbers_some_ok toks buf maxN n hres] at h
        have hnm : n = m := by simpa using h
        subst hnm
        exact readLoop_count_le toks buf 0 maxN n (by omega) hres
      | raised e =>
        rw [readNumbers_some_raised toks buf maxN e hres] at h
        exact absurd h (by simp)

/-- Witness for the amended claim C4 at the file `[1, 2]`, buffer `[7]`
and capacity `1`. -/
theorem C4_witness :
    (readNumbers (some ([1, 2].map Tok.int)) [7] 1).result = RResult.ok 1 ∧
    (readNumbers (some ([1, 2].map Tok.int)) [7] 1).consumed = 1 :=
  C4_capacity_bound.1 [1, 2] [7] 1 (by decide) (by decide)

/-- Claim C2: the claim says that after a read failure nothing is printed
beyond the failure message and the computation terminates; the code
instead falls through (the `exit -7` is commented out), prints
`sum = 0.0` after the failure message, and then dies on the zero
division of the average.  This theorem evaluates the run on an
unopenable path and exhibits the extra `sum = 0.0` line. -/
theorem C2_unopenable_prints_sum_then_crashes :
    pyMain none =
      ⟨[OutLine.failLine "File could not be opened!", OutLine.sumLine 0], 0,
       some PyError.zeroDivisionError⟩ :=
  rfl

/-- Claim C3: in every run in which zero numbers were read, the average
computation `sum / nValues` is a division by zero — the run crashes with
a `ZeroDivisionError` and no average line is printed. -/
theorem C3_zero_count_divides_by_zero (file : File)
    (h : (pyMain file).nValues = 0) :
    (pyMain file).crashed = some PyError.zeroDivisionError ∧
    ∀ q : Rat, OutLine.avgLine q ∉ (pyMain file).output := by
  rw [pyMain_eq_body] at h ⊢
  cases hres : (readNumbers file [] 1000).result with
  | ok n =>
    rw [reporterBody_ok file n hres] at h ⊢
    rw [reporterTail_nValues] at h
    subst h
    rw [reporterTail_zero]
    refine ⟨rfl, ?_⟩
    intro q hq
    simp at hq
  | raised e =>
    rw [reporterBody_raised file e hres]
    rw [reporterTail_zero]
    refine ⟨rfl, ?_⟩
    intro q hq
    simp at hq

/-- Witness for claim C3 at the empty (but openable) file: zero numbers
are read and the run crashes on the division. -/
theorem C3_witness :
    (pyMain (some [])).crashed = some PyError.zeroDivisionError :=
  (C3_zero_count_divides_by_zero (some []) rfl).1

/-- Claim C5: on every exit path of `readNumbers` after a successful open
— normal loop completion or an error raised inside the loop — the file
handle is closed before the result is observed by the caller. -/
theorem C5_handle_always_closed (toks : List Tok) (buf : List Int) (maxN : Nat) :
    (readNumbers (some toks) buf maxN).opened = true ∧
    (readNumbers (some toks) buf maxN).closed = true := by
  cases hres : (readLoop toks buf 0 maxN).res with
  | ok n =>
    rw [readNumbers_some_ok toks buf maxN n hres]
    exact ⟨rfl, rfl⟩
  | raised e =>
    rw [readNumbers_some_raised toks buf maxN e hres]
    exact ⟨rfl, rfl⟩

/-- Claim C6: `readNumbers` raises a failure without entering the read
loop — the `Exception("File could not be opened!")` before the `try`
block — exactly when the resource cannot be opened, i.e. when the open
handle indicator is not positive. -/
theorem C6_open_failure_iff (file : File) (buf : List Int) (maxN : Nat) :
    ((readNumbers file buf maxN).opened = false ∧
     (readNumbers file buf maxN).result =
       RResult.raised (PyError.exception "File could not be opened!")) ↔
    fileOpen file ≤ 0 := by
  cases file with
  | none =>
    rw [readNumbers_none]
    simp [fileOpen]
  | some toks =>
    constructor
    · rintro ⟨h1, -⟩
      exfalso
      cases hres : (readLoop toks buf 0 maxN).res with
      | ok n =>
        rw [readNumbers_some_ok toks buf maxN n hres] at h1
        simp at h1
      | raised e =>
        rw [readNumbers_some_raised toks buf maxN e hres] at h1
        simp at h1
    · intro h
      exact absurd h (by simp [fileOpen])

/-- Claim C7: if an error is raised inside the read loop, `readNumbers`
re-raises a bare `Exception()` to the caller — the original error detail
is discarded — and the cleanup (`fileClose`) has run. -/
theorem C7_reraise_after_cleanup (file : File) (buf : List Int) (maxN : Nat) (e : PyError)
    (h1 : (readNumbers file buf maxN).opened = true)
    (h2 : (readNumbers file buf maxN).result = RResult.raised e) :
    e = PyError.exception "" ∧ (readNumbers file buf maxN).closed = true := by
  cases file with
  | none =>
    rw [readNumbers_none] at h1
    exact absurd h1 (by simp)
  | some toks =>
    cases hres : (readLoop toks buf 0 maxN).res with
    | ok n =>
      rw [readNumbers_some_ok toks buf maxN n hres] at h2
      exact absurd h2 (by simp)
    | raised e2 =>
      rw [readNumbers_some_raised toks buf maxN e2 hres] at h2 ⊢
      have he : PyError.exception "" = e := by simpa using h2
      exact ⟨he.symm, rfl⟩

/-- Witness for claim C7 at a file whose only token is malformed: the
read inside the loop raises, the caller sees a bare `Exception()`, and
the handle is closed. -/
theorem C7_witness :
    PyError.exception "" = PyError.exception "" ∧
    (readNumbers (some [Tok.bad]) [] 1000).closed = true :=
  C7_reraise_after_cleanup (some [Tok.bad]) [] 1000 (PyError.exception "")
    (by decide) (by decide)

/-- Claim C8: the spec's scenario says the file `"1 2 3 4"` yields the
lines `sum = 10.0` and `average = 2.5`; the code instead passes the
empty list `values = []` into `readNumbers`, whose first indexed
assignment raises an `IndexError`, so the run prints the empty failure
message of the re-raised bare `Exception()`, then `sum = 0.0`, and
crashes on the zero division of the average.  This theorem evaluates the
program on that file. -/
theorem C8_sample_file_run :
    pyMain (some [Tok.int 1, Tok.int 2, Tok.int 3, Tok.int 4]) =
      ⟨[OutLine.failLine "", OutLine.sumLine 0], 0, some PyError.zeroDivisionError⟩ ∧
    OutLine.sumLine 10 ∉
      (pyMain (some [Tok.int 1, Tok.int 2, Tok.int 3, Tok.int 4])).output ∧
    OutLine.avgLine (5 / 2) ∉
      (pyMain (some [Tok.int 1, Tok.int 2, Tok.int 3, Tok.int 4])).output :=
  ⟨rfl, by decide, by decide⟩

/-- Claim C9: the Reporter's guard on the file-handle indicator is
vacuous — `fileNo` is the constant `1000`, so `fileNo > 0` holds for
every input and the guarded sum/average block always executes. -/
theorem C9_guard_vacuous :
    mainFileNo = 1000 ∧ 0 < mainFileNo ∧ ∀ file : File, pyMain file = reporterBody file :=
  ⟨rfl, by decide, fun _ => rfl⟩

/-- Claim C10: if `readNumbers` raises, `nValues` keeps its initial value
`0`, the summation loop runs zero times, and the run prints the failure
message followed by `sum = 0.0` before crashing on the average's zero
division. -/
theorem C10_failure_fallthrough (file : File) (e : PyError)
    (h : (readNumbers file [] 1000).result = RResult.raised e) :
    (pyMain file).nValues = 0 ∧
    (pyMain file).output = [OutLine.failLine (pyStr e), OutLine.sumLine 0] ∧
    (pyMain file).crashed = some PyError.zeroDivisionError := by
  rw [pyMain_eq_body, reporterBody_raised file e h, reporterTail_zero]
  exact ⟨rfl, by simp, rfl⟩

/-- Witness for claim C10 at the unopenable path: the open failure is
raised, `nValues` stays `0`, and the failure line plus `sum = 0.0` are
printed before the crash. -/
theorem C10_witness :
    (pyMain none).nValues = 0 ∧
    (pyMain none).output =
      [OutLine.failLine (pyStr (PyError.exception "File could not be opened!")),
       OutLine.sumLine 0] ∧
    (pyMain none).crashed = some PyError.zeroDivisionError :=
  C10_failure_fallthrough none (PyError.exception "File could not be opened!") rfl

end ComputeSum
